import Mathlib

/-!
Shallow embedding of the adsb2dd discrepancy-analysis scripts
(`src/analyze_discrepancy.js` and the unnamed manual-verification script).

JavaScript numbers are modelled as real numbers (`ℝ`); the JS `null` result
of the estimators is modelled as `Option.none`.  Array indexing `a[i]` is
modelled with `List.getD` (all statements below only index in bounds, where
the two agree).  Division in the source is JS floating-point division; in the
model it is real division, with the usual Lean convention `x / 0 = 0` — the
statements below never rely on the value of a division by zero except where
explicitly noted.
-/

namespace ADSB

/-- ECEF position `{x, y, z}` in metres, as produced by `lla2ecef`. -/
structure ECEF where
  x : ℝ
  y : ℝ
  z : ℝ

instance : Inhabited ECEF := ⟨⟨0, 0, 0⟩⟩

/-- Modelled from the spec: `norm` is imported from the missing
`node/geometry.js`; spec §4.1 defines `vectorNorm` as the Euclidean length
`sqrt(x²+y²+z²)` of a 3-vector. -/
noncomputable def norm (v : ℝ × ℝ × ℝ) : ℝ :=
  Real.sqrt (v.1 ^ 2 + v.2.1 ^ 2 + v.2.2 ^ 2)

/-- spec §4.2: `range(a, b)`, the Euclidean distance between two ECEF points,
computed via `vectorNorm` of the componentwise difference. -/
noncomputable def range (a b : ECEF) : ℝ :=
  norm (a.x - b.x, a.y - b.y, a.z - b.z)

/-- The body of the closure mapped over `positions` in
`calculatePositionBasedDoppler` (`analyze_discrepancy.js` lines 7-11):
`dRxTar + dTxTar - dRxTx` for one sample position. -/
noncomputable def delayOf (ecefRx ecefTx : ECEF) (dRxTx : ℝ) (pos : ECEF) : ℝ :=
  norm (ecefRx.x - pos.x, ecefRx.y - pos.y, ecefRx.z - pos.z) +
    norm (ecefTx.x - pos.x, ecefTx.y - pos.y, ecefTx.z - pos.z) - dRxTx

/-- `calculatePositionBasedDoppler` (`analyze_discrepancy.js` lines 4-20).
Mirrors the source line by line: early `null` for fewer than two positions,
a map computing the excess bistatic delays, finite differencing of the last
two entries, and `-range_rate / wavelength`. -/
noncomputable def calculatePositionBasedDoppler (positions : List ECEF)
    (timestamps : List ℝ) (ecefRx ecefTx : ECEF) (dRxTx fc : ℝ) : Option ℝ :=
  if positions.length < 2 then none
  else
    let delays := positions.map (delayOf ecefRx ecefTx dRxTx)
    let n := delays.length
    let dt := timestamps.getD (n - 1) 0 - timestamps.getD (n - 2) 0
    let dd := delays.getD (n - 1) 0 - delays.getD (n - 2) 0
    let range_rate := dd / dt
    let wavelength := 299792458 / (fc * 1000000)
    some (-range_rate / wavelength)

/-- Total bistatic path length of one sample: `range(Rx,pos) + range(Tx,pos)`
(the delay before subtracting the constant baseline). -/
noncomputable def bistaticPath (ecefRx ecefTx : ECEF) (pos : ECEF) : ℝ :=
  range ecefRx pos + range ecefTx pos

/-- Longitude of the `t`-th sample of the synthetic trajectory
(`analyze_discrepancy.js` lines 43-44): with `gs = 88.5`, `lat = -35.0`,
`lon = 138.65`, the loop computes `offset = gs * 0.514444 * t / 111320` and
`new_lon = lon + offset / Math.cos(lat * Math.PI / 180)`. -/
noncomputable def synthetic_new_lon (t : ℕ) : ℝ :=
  138.65 + ((88.5 * 0.514444 * (t : ℝ)) / 111320) / Real.cos (-35.0 * Real.pi / 180)

/-- Aircraft record as used by the scripts: `{lat, lon, gs, track, alt_geom}`
plus the optional `geom_rate`; `gs`, `track` and `geom_rate` are optional
fields of the ADS-B feed. -/
structure AircraftState where
  lat : ℝ
  lon : ℝ
  alt_geom : ℝ
  gs : Option ℝ
  track : Option ℝ
  geom_rate : Option ℝ

/-- Modelled from the spec: the numeric branch of `calculateDopplerFromVelocity`
from the missing `node/doppler.js`, following spec §4.3: ENU velocity from
ground speed (knots → m/s, ×0.514444), track (east = v·sin, north = v·cos),
vertical rate (ft/min → m/s, ×0.00508, defaulting to 0 when absent); ENU→ECEF
rotation at the target's own latitude/longitude; unit vectors toward Rx and Tx
from the precomputed ranges; `rangeRate = -(v · (uRx + uTx))`;
`doppler = -rangeRate / wavelength`. -/
noncomputable def velocityDopplerValue (aircraft : AircraftState) (gs track : ℝ)
    (targetEcef ecefRx ecefTx : ECEF) (dRxTar dTxTar fc : ℝ) : ℝ :=
  let v := gs * 0.514444
  let trackRad := track * Real.pi / 180
  let vEast := v * Real.sin trackRad
  let vNorth := v * Real.cos trackRad
  let vUp := aircraft.geom_rate.getD 0 * 0.00508
  let latRad := aircraft.lat * Real.pi / 180
  let lonRad := aircraft.lon * Real.pi / 180
  let vx := -Real.sin lonRad * vEast - Real.sin latRad * Real.cos lonRad * vNorth +
      Real.cos latRad * Real.cos lonRad * vUp
  let vy := Real.cos lonRad * vEast - Real.sin latRad * Real.sin lonRad * vNorth +
      Real.cos latRad * Real.sin lonRad * vUp
  let vz := Real.cos latRad * vNorth + Real.sin latRad * vUp
  let uRxx := (ecefRx.x - targetEcef.x) / dRxTar
  let uRxy := (ecefRx.y - targetEcef.y) / dRxTar
  let uRxz := (ecefRx.z - targetEcef.z) / dRxTar
  let uTxx := (ecefTx.x - targetEcef.x) / dTxTar
  let uTxy := (ecefTx.y - targetEcef.y) / dTxTar
  let uTxz := (ecefTx.z - targetEcef.z) / dTxTar
  let rangeRate := -(vx * (uRxx + uTxx) + vy * (uRxy + uTxy) + vz * (uRxz + uTxz))
  let wavelength := 299792458 / (fc * 1000000)
  (-rangeRate) / wavelength

/-- Modelled from the spec: `calculateDopplerFromVelocity` from the missing
`node/doppler.js`.  Spec §4.3 and §7 (MissingKinematics): returns the explicit
unavailable value (`null`, modelled as `none`) when `ground_speed` (`gs`) or
`track` is absent; otherwise computes the instantaneous velocity-based
Doppler. -/
noncomputable def calculateDopplerFromVelocity (aircraft : AircraftState)
    (targetEcef ecefRx ecefTx : ECEF) (dRxTar dTxTar fc : ℝ) : Option ℝ :=
  match aircraft.gs, aircraft.track with
  | some gs, some track =>
      some (velocityDopplerValue aircraft gs track targetEcef ecefRx ecefTx dRxTar dTxTar fc)
  | _, _ => none

/-- In-bounds `getD` over a mapped list evaluates the function at the
`getD` of the original list. -/
theorem getD_map_eq (f : ECEF → ℝ) (l : List ECEF) (i : ℕ) (h : i < l.length) :
    (l.map f).getD i 0 = f (l.getD i default) := by
  rw [List.getD_eq_getElem _ _ (by simpa using h), List.getD_eq_getElem _ _ h,
    List.getElem_map]

/-- The mapped delay of a sample is its total bistatic path length minus the
baseline. -/
theorem delayOf_eq_bistaticPath_sub (ecefRx ecefTx : ECEF) (dRxTx : ℝ) (pos : ECEF) :
    delayOf ecefRx ecefTx dRxTx pos = bistaticPath ecefRx ecefTx pos - dRxTx := rfl

/-- The mapped delay is symmetric in the two stations. -/
theorem delayOf_comm (a b : ECEF) (dRxTx : ℝ) :
    delayOf a b dRxTx = delayOf b a dRxTx := by
  funext pos
  unfold delayOf
  ring

/-- Evaluation lemma: for a history of at least two samples the estimator
returns exactly the finite-difference formula of the source, expressed through
the last two positions and the last two timestamps. -/
theorem positionDoppler_eval (positions : List ECEF) (timestamps : List ℝ)
    (ecefRx ecefTx : ECEF) (dRxTx fc : ℝ) (hlen : 2 ≤ positions.length) :
    calculatePositionBasedDoppler positions timestamps ecefRx ecefTx dRxTx fc =
      some (-((delayOf ecefRx ecefTx dRxTx (positions.getD (positions.length - 1) default) -
            delayOf ecefRx ecefTx dRxTx (positions.getD (positions.length - 2) default)) /
          (timestamps.getD (positions.length - 1) 0 -
            timestamps.getD (positions.length - 2) 0)) /
        (299792458 / (fc * 1000000))) := by
  have h1 : positions.length - 1 < positions.length := by omega
  have h2 : positions.length - 2 < positions.length := by omega
  simp only [calculatePositionBasedDoppler, List.length_map, Nat.not_lt.mpr hlen,
    if_false, getD_map_eq _ _ _ h1, getD_map_eq _ _ _ h2]

/-- C4: `calculatePositionBasedDoppler` returns the explicit unavailable value
`none` (the JS `null`) for every history with fewer than two samples,
regardless of station geometry, baseline range and carrier frequency. -/
theorem positionDoppler_short_history_null (positions : List ECEF) (timestamps : List ℝ)
    (ecefRx ecefTx : ECEF) (dRxTx fc : ℝ) (h : positions.length < 2) :
    calculatePositionBasedDoppler positions timestamps ecefRx ecefTx dRxTx fc = none := by
  simp [calculatePositionBasedDoppler, h]

/-- C4 witness: the empty history yields `none` at a concrete geometry. -/
theorem positionDoppler_short_history_null_witness :
    ([] : List ECEF).length < 2 ∧
      calculatePositionBasedDoppler [] [] ⟨0, 0, 0⟩ ⟨0, 0, 0⟩ 0 1 = none :=
  ⟨by decide, positionDoppler_short_history_null [] [] ⟨0, 0, 0⟩ ⟨0, 0, 0⟩ 0 1 (by decide)⟩

/-- C7: the position-based estimator is a pure function of its six arguments —
re-running it on identical positions, timestamps, station ECEF coordinates,
baseline range and carrier frequency yields identical output; the shallow
embedding of the source reads nothing but its parameters, so the two runs are
one and the same term. -/
theorem positionDoppler_deterministic (positions : List ECEF) (timestamps : List ℝ)
    (ecefRx ecefTx : ECEF) (dRxTx fc : ℝ) :
    calculatePositionBasedDoppler positions timestamps ecefRx ecefTx dRxTx fc =
      calculatePositionBasedDoppler positions timestamps ecefRx ecefTx dRxTx fc := rfl

/-- C10: swapping the Rx and Tx ECEF position arguments, keeping history,
baseline and carrier frequency fixed, yields an identical result: each mapped
delay `dRxTar + dTxTar - dRxTx` is symmetric under the swap. -/
theorem positionDoppler_station_swap (positions : List ECEF) (timestamps : List ℝ)
    (ecefRx ecefTx : ECEF) (dRxTx fc : ℝ) :
    calculatePositionBasedDoppler positions timestamps ecefRx ecefTx dRxTx fc =
      calculatePositionBasedDoppler positions timestamps ecefTx ecefRx dRxTx fc := by
  unfold calculatePositionBasedDoppler
  rw [delayOf_comm ecefRx ecefTx]

/-- C2: the list of delays mapped over the history inside
`calculatePositionBasedDoppler` is exactly
`range(Rx, pos) + range(Tx, pos) - baselineRxTx` at every sample position,
with `range` the Euclidean distance between two ECEF points. -/
theorem delays_eq_excess_bistatic_path (ecefRx ecefTx : ECEF) (dRxTx : ℝ)
    (positions : List ECEF) :
    positions.map (delayOf ecefRx ecefTx dRxTx) =
      positions.map (fun pos => range ecefRx pos + range ecefTx pos - dRxTx) := rfl

/-- C1 counterexample: a two-sample history whose two timestamps are equal
does not make the estimator fail — it returns a value (`some _`, not `none`):
the source has no guard on `dt` and divides by zero. -/
theorem positionDoppler_equal_timestamps_cex :
    ([0, 0] : List ℝ).getD (2 - 1) 0 = ([0, 0] : List ℝ).getD (2 - 2) 0 ∧
      calculatePositionBasedDoppler [⟨0, 0, 0⟩, ⟨0, 0, 0⟩] [0, 0] ⟨0, 0, 0⟩ ⟨0, 0, 0⟩ 0 1 ≠
        none := by
  refine ⟨rfl, ?_⟩
  simp [calculatePositionBasedDoppler]

/-- C1 (amended): when the two most recent timestamps are equal the estimator
does not fail explicitly: for every history of length at least 2 it still
returns a value (in JS the unguarded division by zero makes that value NaN or
±Infinity); the explicit unavailable value is reserved for short histories. -/
theorem positionDoppler_equal_timestamps_isSome (positions : List ECEF)
    (timestamps : List ℝ) (ecefRx ecefTx : ECEF) (dRxTx fc : ℝ)
    (hlen : 2 ≤ positions.length)
    (hts : timestamps.getD (positions.length - 1) 0 =
      timestamps.getD (positions.length - 2) 0) :
    (calculatePositionBasedDoppler positions timestamps ecefRx ecefTx dRxTx fc).isSome =
      true := by
  simp [calculatePositionBasedDoppler, Nat.not_lt.mpr hlen]

/-- C1 witness: the amended statement applied to a concrete two-sample history
with equal timestamps. -/
theorem positionDoppler_equal_timestamps_isSome_witness :
    2 ≤ ([⟨0, 0, 0⟩, ⟨0, 0, 0⟩] : List ECEF).length ∧
      ([0, 0] : List ℝ).getD (([⟨0, 0, 0⟩, ⟨0, 0, 0⟩] : List ECEF).length - 1) 0 =
        ([0, 0] : List ℝ).getD (([⟨0, 0, 0⟩, ⟨0, 0, 0⟩] : List ECEF).length - 2) 0 ∧
      (calculatePositionBasedDoppler [⟨0, 0, 0⟩, ⟨0, 0, 0⟩] [0, 0] ⟨0, 0, 0⟩ ⟨0, 0, 0⟩
          0 1).isSome = true :=
  ⟨by decide, rfl,
    positionDoppler_equal_timestamps_isSome _ _ _ _ _ _ (by decide) rfl⟩

/-- C8: the velocity-based estimator returns the explicit unavailable value
`none` (the JS `null`) whenever the aircraft record's ground-speed or track
field is absent, for any geometry, ranges and carrier frequency. -/
theorem velocityDoppler_missing_kinematics_null (aircraft : AircraftState)
    (targetEcef ecefRx ecefTx : ECEF) (dRxTar dTxTar fc : ℝ)
    (h : aircraft.gs = none ∨ aircraft.track = none) :
    calculateDopplerFromVelocity aircraft targetEcef ecefRx ecefTx dRxTar dTxTar fc =
      none := by
  cases hgs : aircraft.gs with
  | none => simp [calculateDopplerFromVelocity, hgs]
  | some gs =>
    cases htr : aircraft.track with
    | none => simp [calculateDopplerFromVelocity, hgs, htr]
    | some track =>
      rcases h with h | h
      · rw [hgs] at h; simp at h
      · rw [htr] at h; simp at h

/-- C3: for every history of at least two samples with distinct last two
timestamps and positive carrier frequency (MHz), the estimator returns
`-rangeRate / wavelength` with
`rangeRate = (delay[last] - delay[prev]) / (t[last] - t[prev])` computed from
the two most recent samples only and `wavelength = 299792458 / (fc * 1e6)`. -/
theorem positionDoppler_formula (positions : List ECEF) (timestamps : List ℝ)
    (ecefRx ecefTx : ECEF) (dRxTx fc : ℝ) (hlen : 2 ≤ positions.length)
    (hts : timestamps.getD (positions.length - 1) 0 ≠
      timestamps.getD (positions.length - 2) 0)
    (hfc : 0 < fc) :
    calculatePositionBasedDoppler positions timestamps ecefRx ecefTx dRxTx fc =
      some (-((delayOf ecefRx ecefTx dRxTx (positions.getD (positions.length - 1) default) -
            delayOf ecefRx ecefTx dRxTx (positions.getD (positions.length - 2) default)) /
          (timestamps.getD (positions.length - 1) 0 -
            timestamps.getD (positions.length - 2) 0)) /
        (299792458 / (fc * 1000000))) :=
  positionDoppler_eval positions timestamps ecefRx ecefTx dRxTx fc hlen

/-- C3 witness: the formula at a concrete two-sample history with timestamps
0 and 1 and carrier frequency 1 MHz. -/
theorem positionDoppler_formula_witness :
    2 ≤ ([⟨0, 0, 0⟩, ⟨0, 0, 0⟩] : List ECEF).length ∧
      ([0, 1] : List ℝ).getD (([⟨0, 0, 0⟩, ⟨0, 0, 0⟩] : List ECEF).length - 1) 0 ≠
        ([0, 1] : List ℝ).getD (([⟨0, 0, 0⟩, ⟨0, 0, 0⟩] : List ECEF).length - 2) 0 ∧
      (0 : ℝ) < 1 ∧
      calculatePositionBasedDoppler [⟨0, 0, 0⟩, ⟨0, 0, 0⟩] [0, 1] ⟨0, 0, 0⟩ ⟨0, 0, 0⟩ 0 1 =
        some (-((delayOf ⟨0, 0, 0⟩ ⟨0, 0, 0⟩ 0
              (([⟨0, 0, 0⟩, ⟨0, 0, 0⟩] : List ECEF).getD
                (([⟨0, 0, 0⟩, ⟨0, 0, 0⟩] : List ECEF).length - 1) default) -
            delayOf ⟨0, 0, 0⟩ ⟨0, 0, 0⟩ 0
              (([⟨0, 0, 0⟩, ⟨0, 0, 0⟩] : List ECEF).getD
                (([⟨0, 0, 0⟩, ⟨0, 0, 0⟩] : List ECEF).length - 2) default)) /
          (([0, 1] : List ℝ).getD (([⟨0, 0, 0⟩, ⟨0, 0, 0⟩] : List ECEF).length - 1) 0 -
            ([0, 1] : List ℝ).getD (([⟨0, 0, 0⟩, ⟨0, 0, 0⟩] : List ECEF).length - 2) 0)) /
        (299792458 / ((1 : ℝ) * 1000000))) :=
  ⟨by decide, by simp, by norm_num,
    positionDoppler_formula _ _ _ _ _ _ (by decide) (by simp) (by norm_num)⟩

/-- C5: sign convention — with time strictly increasing between the two most
recent samples and a positive carrier frequency, a growing total bistatic
path (receding target) gives a negative Doppler value and a shrinking one
(approaching target) gives a positive Doppler value. -/
theorem positionDoppler_sign_convention (positions : List ECEF) (timestamps : List ℝ)
    (ecefRx ecefTx : ECEF) (dRxTx fc : ℝ) (hlen : 2 ≤ positions.length)
    (ht : timestamps.getD (positions.length - 2) 0 <
      timestamps.getD (positions.length - 1) 0)
    (hfc : 0 < fc) :
    ∃ v, calculatePositionBasedDoppler positions timestamps ecefRx ecefTx dRxTx fc =
        some v ∧
      (bistaticPath ecefRx ecefTx (positions.getD (positions.length - 2) default) <
          bistaticPath ecefRx ecefTx (positions.getD (positions.length - 1) default) →
        v < 0) ∧
      (bistaticPath ecefRx ecefTx (positions.getD (positions.length - 1) default) <
          bistaticPath ecefRx ecefTx (positions.getD (positions.length - 2) default) →
        0 < v) := by
  have hdt : 0 < timestamps.getD (positions.length - 1) 0 -
      timestamps.getD (positions.length - 2) 0 := sub_pos.mpr ht
  have hwl : 0 < (299792458 : ℝ) / (fc * 1000000) :=
    div_pos (by norm_num) (mul_pos hfc (by norm_num))
  refine ⟨_, positionDoppler_eval positions timestamps ecefRx ecefTx dRxTx fc hlen, ?_, ?_⟩
  · intro hpath
    have hdd : 0 <
        delayOf ecefRx ecefTx dRxTx (positions.getD (positions.length - 1) default) -
          delayOf ecefRx ecefTx dRxTx (positions.getD (positions.length - 2) default) := by
      simp only [delayOf_eq_bistaticPath_sub]
      linarith
    have hq : 0 <
        (delayOf ecefRx ecefTx dRxTx (positions.getD (positions.length - 1) default) -
            delayOf ecefRx ecefTx dRxTx (positions.getD (positions.length - 2) default)) /
          (timestamps.getD (positions.length - 1) 0 -
            timestamps.getD (positions.length - 2) 0) := div_pos hdd hdt
    exact div_neg_of_neg_of_pos (by linarith) hwl
  · intro hpath
    have hdd :
        delayOf ecefRx ecefTx dRxTx (positions.getD (positions.length - 1) default) -
          delayOf ecefRx ecefTx dRxTx (positions.getD (positions.length - 2) default) < 0 := by
      simp only [delayOf_eq_bistaticPath_sub]
      linarith
    have hq :
        (delayOf ecefRx ecefTx dRxTx (positions.getD (positions.length - 1) default) -
            delayOf ecefRx ecefTx dRxTx (positions.getD (positions.length - 2) default)) /
          (timestamps.getD (positions.length - 1) 0 -
            timestamps.getD (positions.length - 2) 0) < 0 := div_neg_of_neg_of_pos hdd hdt
    exact div_pos (by linarith) hwl

/-- C5 witness: a concrete receding two-sample history with increasing
timestamps and carrier frequency 1 MHz. -/
theorem positionDoppler_sign_convention_witness :
    2 ≤ ([⟨3, 4, 0⟩, ⟨6, 8, 0⟩] : List ECEF).length ∧
      ([0, 1] : List ℝ).getD (([⟨3, 4, 0⟩, ⟨6, 8, 0⟩] : List ECEF).length - 2) 0 <
        ([0, 1] : List ℝ).getD (([⟨3, 4, 0⟩, ⟨6, 8, 0⟩] : List ECEF).length - 1) 0 ∧
      (0 : ℝ) < 1 ∧
      (∃ v, calculatePositionBasedDoppler [⟨3, 4, 0⟩, ⟨6, 8, 0⟩] [0, 1] ⟨0, 0, 0⟩ ⟨0, 0, 0⟩
            0 1 = some v ∧
        (bistaticPath ⟨0, 0, 0⟩ ⟨0, 0, 0⟩
            (([⟨3, 4, 0⟩, ⟨6, 8, 0⟩] : List ECEF).getD
              (([⟨3, 4, 0⟩, ⟨6, 8, 0⟩] : List ECEF).length - 2) default) <
          bistaticPath ⟨0, 0, 0⟩ ⟨0, 0, 0⟩
            (([⟨3, 4, 0⟩, ⟨6, 8, 0⟩] : List ECEF).getD
              (([⟨3, 4, 0⟩, ⟨6, 8, 0⟩] : List ECEF).length - 1) default) → v < 0) ∧
        (bistaticPath ⟨0, 0, 0⟩ ⟨0, 0, 0⟩
            (([⟨3, 4, 0⟩, ⟨6, 8, 0⟩] : List ECEF).getD
              (([⟨3, 4, 0⟩, ⟨6, 8, 0⟩] : List ECEF).length - 1) default) <
          bistaticPath ⟨0, 0, 0⟩ ⟨0, 0, 0⟩
            (([⟨3, 4, 0⟩, ⟨6, 8, 0⟩] : List ECEF).getD
              (([⟨3, 4, 0⟩, ⟨6, 8, 0⟩] : List ECEF).length - 2) default) → 0 < v)) :=
  ⟨by decide, by simp, by norm_num,
    positionDoppler_sign_convention _ _ _ _ _ _ (by decide) (by simp) (by norm_num)⟩

/-- C6: evaluated at the failing input `t = 1`, the synthetic trajectory loop
moves the target east — the longitude of the second sample is strictly
greater than the starting longitude of the first sample — although the
scenario's declared track of 270° (due west) requires each successive sample
to be displaced westward (decreasing longitude). -/
theorem synthetic_trajectory_moves_east : synthetic_new_lon 0 < synthetic_new_lon 1 := by
  have hpi := Real.pi_pos
  have hcos : 0 < Real.cos (-35.0 * Real.pi / 180) := by
    refine Real.cos_pos_of_mem_Ioo (Set.mem_Ioo.mpr ⟨by linarith, by linarith⟩)
  unfold synthetic_new_lon
  refine add_lt_add_left ?_ _
  have h0 : ((88.5 * 0.514444 * ((0 : ℕ) : ℝ)) / 111320) /
      Real.cos (-35.0 * Real.pi / 180) = 0 := by
    norm_num
  rw [h0]
  refine div_pos (div_pos ?_ ?_) hcos <;> norm_num

/-- C9: the estimator reads only the final two positions and the final two
timestamps — two histories of length at least 2 agreeing on those (with the
same station geometry, baseline and carrier frequency) produce identical
results; no earlier sample and no smoothing influences the output. -/
theorem positionDoppler_depends_on_last_two (p1 p2 : List ECEF) (t1 t2 : List ℝ)
    (ecefRx ecefTx : ECEF) (dRxTx fc : ℝ)
    (h1 : 2 ≤ p1.length) (h2 : 2 ≤ p2.length)
    (hpL : p1.getD (p1.length - 1) default = p2.getD (p2.length - 1) default)
    (hpP : p1.getD (p1.length - 2) default = p2.getD (p2.length - 2) default)
    (htL : t1.getD (p1.length - 1) 0 = t2.getD (p2.length - 1) 0)
    (htP : t1.getD (p1.length - 2) 0 = t2.getD (p2.length - 2) 0) :
    calculatePositionBasedDoppler p1 t1 ecefRx ecefTx dRxTx fc =
      calculatePositionBasedDoppler p2 t2 ecefRx ecefTx dRxTx fc := by
  rw [positionDoppler_eval _ _ _ _ _ _ h1, positionDoppler_eval _ _ _ _ _ _ h2,
    hpL, hpP, htL, htP]

/-- C9 witness: a two-sample history and a three-sample history sharing their
final two samples give the same result. -/
theorem positionDoppler_depends_on_last_two_witness :
    2 ≤ ([⟨1, 2, 3⟩, ⟨4, 5, 6⟩] : List ECEF).length ∧
      2 ≤ ([⟨7, 8, 9⟩, ⟨1, 2, 3⟩, ⟨4, 5, 6⟩] : List ECEF).length ∧
      ([⟨1, 2, 3⟩, ⟨4, 5, 6⟩] : List ECEF).getD
          (([⟨1, 2, 3⟩, ⟨4, 5, 6⟩] : List ECEF).length - 1) default =
        ([⟨7, 8, 9⟩, ⟨1, 2, 3⟩, ⟨4, 5, 6⟩] : List ECEF).getD
          (([⟨7, 8, 9⟩, ⟨1, 2, 3⟩, ⟨4, 5, 6⟩] : List ECEF).length - 1) default ∧
      ([⟨1, 2, 3⟩, ⟨4, 5, 6⟩] : List ECEF).getD
          (([⟨1, 2, 3⟩, ⟨4, 5, 6⟩] : List ECEF).length - 2) default =
        ([⟨7, 8, 9⟩, ⟨1, 2, 3⟩, ⟨4, 5, 6⟩] : List ECEF).getD
          (([⟨7, 8, 9⟩, ⟨1, 2, 3⟩, ⟨4, 5, 6⟩] : List ECEF).length - 2) default ∧
      ([0, 1] : List ℝ).getD (([⟨1, 2, 3⟩, ⟨4, 5, 6⟩] : List ECEF).length - 1) 0 =
        ([9, 0, 1] : List ℝ).getD
          (([⟨7, 8, 9⟩, ⟨1, 2, 3⟩, ⟨4, 5, 6⟩] : List ECEF).length - 1) 0 ∧
      ([0, 1] : List ℝ).getD (([⟨1, 2, 3⟩, ⟨4, 5, 6⟩] : List ECEF).length - 2) 0 =
        ([9, 0, 1] : List ℝ).getD
          (([⟨7, 8, 9⟩, ⟨1, 2, 3⟩, ⟨4, 5, 6⟩] : List ECEF).length - 2) 0 ∧
      calculatePositionBasedDoppler [⟨1, 2, 3⟩, ⟨4, 5, 6⟩] [0, 1] ⟨0, 0, 1⟩ ⟨0, 1, 0⟩
          7 204.64 =
        calculatePositionBasedDoppler [⟨7, 8, 9⟩, ⟨1, 2, 3⟩, ⟨4, 5, 6⟩] [9, 0, 1]
          ⟨0, 0, 1⟩ ⟨0, 1, 0⟩ 7 204.64 :=
  ⟨by decide, by decide, rfl, rfl, rfl, rfl,
    positionDoppler_depends_on_last_two _ _ _ _ _ _ _ _ (by decide) (by decide)
      rfl rfl rfl rfl⟩

/-- C8 witness: an aircraft record with `gs` absent and `track` present. -/
theorem velocityDoppler_missing_kinematics_null_witness :
    ((AircraftState.mk (-35) 138.65 30100 none (some 270) none).gs = none ∨
        (AircraftState.mk (-35) 138.65 30100 none (some 270) none).track = none) ∧
      calculateDopplerFromVelocity (AircraftState.mk (-35) 138.65 30100 none (some 270) none)
        ⟨0, 0, 0⟩ ⟨1, 0, 0⟩ ⟨0, 1, 0⟩ 1 1 204.64 = none :=
  ⟨Or.inl rfl,
    velocityDoppler_missing_kinematics_null _ _ _ _ _ _ _ (Or.inl rfl)⟩

end ADSB
